import Mathlib

/-!
Shallow embedding of the Fluid repository (imaginarygarage/Fluid).

The embedded code is `src/fluid.rs`, the module that `src/main.rs` declares
with `mod fluid;` and therefore the module the program compiles.  The
alternative revision `src/fluid/fixed.rs` (not reachable from `main.rs`: no
`mod fixed;` exists) differs only in the `Div` implementation for `FixedPt`;
that variant is embedded separately as `FixedPt.div_fixed_module`.

Machine integers: Rust `i32` is modelled as `Int` together with an explicit
two's-complement wrap `wrap32` applied wherever the Rust operation can
overflow (release-profile wrapping semantics); `i8` likewise via `wrap8`.
Rust `/` on `i32` is truncated division (`Int.tdiv`), `>>` on `i32` is an
arithmetic shift (floor division by a power of two), and `<<` discards high
bits (modelled as multiply-then-wrap).  Rust division by zero panics; the
embedding totalises it with Lean's `Int.tdiv _ 0 = 0` convention, and the
places where the source can actually reach a zero divisor are analysed
explicitly.
-/

/-- Two's-complement wrap of an unbounded integer into the `i32` range
`[-2^31, 2^31)`. -/
def wrap32 (x : Int) : Int := (x + 2^31) % 2^32 - 2^31

/-- Two's-complement wrap of an unbounded integer into the `i8` range
`[-2^7, 2^7)`. -/
def wrap8 (x : Int) : Int := (x + 2^7) % 2^8 - 2^7

/-- Arithmetic shift right by `k` bits on an `i32` value: floor division by
`2^k` (Lean's `/` on `Int` is Euclidean division, which agrees with floor
division for a positive divisor). -/
def sar (x : Int) (k : Nat) : Int := x / 2^k

/-- `struct FixedPt { value: i32 }` — fluid.rs lines 11-14: the Q16.16
fixed-point scalar. -/
structure FixedPt where
  value : Int
deriving DecidableEq

namespace FixedPt

/-- `FixedPt::from_i8` — fluid.rs lines 28-32: `(value as i32) << Self::BASE`
with `BASE = 16`. -/
def from_i8 (k : Int) : FixedPt := ⟨wrap32 (k * 2^16)⟩

/-- `FixedPt::ZERO` — fluid.rs line 19. -/
def ZERO : FixedPt := from_i8 0

/-- `FixedPt::abs` — fluid.rs lines 34-45 (negation of `i32::MIN` wraps in a
release build). -/
def abs (a : FixedPt) : FixedPt :=
  if a.value < 0 then ⟨wrap32 (-a.value)⟩ else ⟨a.value⟩

/-- `FixedPt::to_i8` — fluid.rs lines 47-49: `(self.value >> Self::BASE) as i8`. -/
def to_i8 (a : FixedPt) : Int := wrap8 (sar a.value 16)

/-- `impl Add for FixedPt` — fluid.rs lines 52-59. -/
def add (a b : FixedPt) : FixedPt := ⟨wrap32 (a.value + b.value)⟩

/-- `impl Sub for FixedPt` — fluid.rs lines 67-74. -/
def sub (a b : FixedPt) : FixedPt := ⟨wrap32 (a.value - b.value)⟩

/-- `impl Mul for FixedPt` — fluid.rs lines 82-89:
`(self.value >> HALF_BASE) * (rhs.value >> HALF_BASE)` with `HALF_BASE = 8`. -/
def mul (a b : FixedPt) : FixedPt := ⟨wrap32 (sar a.value 8 * sar b.value 8)⟩

/-- `impl Div for FixedPt` — fluid.rs lines 91-98:
`(self.value << HALF_BASE) / (rhs.value << HALF_BASE)`.  Both operands are
shifted left by 8 (wrapping) and then divided with `i32` truncated division. -/
def div (a b : FixedPt) : FixedPt :=
  ⟨wrap32 (Int.tdiv (wrap32 (a.value * 2^8)) (wrap32 (b.value * 2^8)))⟩

/-- `impl Div for FixedPt` — fluid/fixed.rs lines 92-99 (the other revision
of the division, not compiled into the program):
`((self.value << HALF_BASE) / rhs.value) << HALF_BASE`. -/
def div_fixed_module (a b : FixedPt) : FixedPt :=
  ⟨wrap32 (wrap32 (Int.tdiv (wrap32 (a.value * 2^8)) b.value) * 2^8)⟩

/-- `impl Div<i32> for FixedPt` — fluid.rs lines 100-107: `self.value / rhs`. -/
def divInt (a : FixedPt) (n : Int) : FixedPt := ⟨wrap32 (Int.tdiv a.value n)⟩

/-- `core::cmp::max` on `FixedPt` under the derived by-`value` ordering
(returns the second argument on a tie, as Rust's `Ord::max` does). -/
def cmax (a b : FixedPt) : FixedPt := if a.value ≤ b.value then b else a

/-- `core::cmp::min` on `FixedPt` under the derived by-`value` ordering
(returns the first argument on a tie, as Rust's `Ord::min` does). -/
def cmin (a b : FixedPt) : FixedPt := if a.value ≤ b.value then a else b

end FixedPt

instance : Add FixedPt := ⟨FixedPt.add⟩
instance : Sub FixedPt := ⟨FixedPt.sub⟩
instance : Mul FixedPt := ⟨FixedPt.mul⟩
instance : Div FixedPt := ⟨FixedPt.div⟩
instance : HDiv FixedPt Int FixedPt := ⟨FixedPt.divInt⟩

/-- `struct FixedPtVec2D` — fluid.rs lines 109-113. -/
structure FixedPtVec2D where
  x : FixedPt
  y : FixedPt
deriving DecidableEq

namespace FixedPtVec2D

/-- `FixedPtVec2D::SQRT_2_MINUS_1` — fluid.rs line 117:
`(0.41421356 * (1 << 16) as f64) as i32`.  In `f64`, `0.41421356 * 65536 =
27145.8998…`, and the `as i32` cast truncates toward zero, giving 27145. -/
def SQRT_2_MINUS_1 : FixedPt := ⟨27145⟩

/-- `FixedPtVec2D::ZERO` — fluid.rs line 119. -/
def ZERO : FixedPtVec2D := ⟨FixedPt.from_i8 0, FixedPt.from_i8 0⟩

/-- `FixedPtVec2D::from_i8s` — fluid.rs lines 122-127. -/
def from_i8s (x y : Int) : FixedPtVec2D := ⟨FixedPt.from_i8 x, FixedPt.from_i8 y⟩

/-- componentwise `Add` — fluid.rs lines 161-169. -/
def add (a b : FixedPtVec2D) : FixedPtVec2D := ⟨a.x + b.x, a.y + b.y⟩

/-- componentwise `Sub` — fluid.rs lines 178-186. -/
def sub (a b : FixedPtVec2D) : FixedPtVec2D := ⟨a.x - b.x, a.y - b.y⟩

/-- `Mul<FixedPt>` — fluid.rs lines 195-203. -/
def mulF (a : FixedPtVec2D) (s : FixedPt) : FixedPtVec2D := ⟨a.x * s, a.y * s⟩

/-- `Div<FixedPt>` — fluid.rs lines 205-213. -/
def divF (a : FixedPtVec2D) (s : FixedPt) : FixedPtVec2D := ⟨a.x / s, a.y / s⟩

/-- `Div<i32>` — fluid.rs lines 215-223. -/
def divI (a : FixedPtVec2D) (n : Int) : FixedPtVec2D := ⟨a.x / n, a.y / n⟩

/-- `FixedPtVec2D::dot` — fluid.rs lines 129-131. -/
def dot (a b : FixedPtVec2D) : FixedPt := a.x * b.x + a.y * b.y

/-- `FixedPtVec2D::magnitude` — fluid.rs lines 137-143: the octagonal
approximation `max(|x|,|y|) + min(|x|,|y|) * (sqrt 2 - 1)`. -/
def magnitude (v : FixedPtVec2D) : FixedPt :=
  let dx := v.x.abs
  let dy := v.y.abs
  let a := FixedPt.cmax dx dy
  let b := FixedPt.cmin dx dy
  a + b * SQRT_2_MINUS_1

/-- `FixedPtVec2D::vector_to` — fluid.rs lines 145-150. -/
def vector_to (a b : FixedPtVec2D) : FixedPtVec2D := ⟨b.x - a.x, b.y - a.y⟩

/-- `FixedPtVec2D::distance_to` — fluid.rs lines 133-135. -/
def distance_to (a b : FixedPtVec2D) : FixedPt := (a.vector_to b).magnitude

end FixedPtVec2D

instance : Add FixedPtVec2D := ⟨FixedPtVec2D.add⟩
instance : Sub FixedPtVec2D := ⟨FixedPtVec2D.sub⟩
instance : HMul FixedPtVec2D FixedPt FixedPtVec2D := ⟨FixedPtVec2D.mulF⟩
instance : HDiv FixedPtVec2D FixedPt FixedPtVec2D := ⟨FixedPtVec2D.divF⟩
instance : HDiv FixedPtVec2D Int FixedPtVec2D := ⟨FixedPtVec2D.divI⟩

/-- `struct FixedPtNearFar` — fluid.rs lines 225-229. -/
structure FixedPtNearFar where
  near : FixedPt
  far : FixedPt
deriving DecidableEq

/-- `FixedPtNearFar::from_i8s` — fluid.rs lines 232-237. -/
def FixedPtNearFar.from_i8s (near far : Int) : FixedPtNearFar :=
  ⟨FixedPt.from_i8 near, FixedPt.from_i8 far⟩

/-- `struct FixedPtViscosity` — fluid.rs lines 246-250. -/
structure FixedPtViscosity where
  sigma : FixedPt
  beta : FixedPt
deriving DecidableEq

/-- `struct Particle` — fluid.rs lines 267-274. -/
structure Particle where
  position : FixedPtVec2D
  previous_position : FixedPtVec2D
  velocity : FixedPtVec2D
  pressure : FixedPtNearFar
  density : FixedPtNearFar
deriving DecidableEq

namespace Particle

/-- `Particle::new` — fluid.rs lines 277-285. -/
def new (x y : Int) : Particle :=
  { position := FixedPtVec2D.from_i8s x y
    previous_position := FixedPtVec2D.from_i8s x y
    velocity := FixedPtVec2D.from_i8s 0 0
    pressure := FixedPtNearFar.from_i8s 0 0
    density := FixedPtNearFar.from_i8s 0 0 }

/-- `Particle::distance_to` — fluid.rs lines 287-289. -/
def distance_to (p q : Particle) : FixedPt := p.position.distance_to q.position

/-- `Particle::vector_to` — fluid.rs lines 291-293. -/
def vector_to (p q : Particle) : FixedPtVec2D := p.position.vector_to q.position

/-- `Particle::get_display_position` — fluid.rs lines 295-297. -/
def get_display_position (p : Particle) : Int × Int := (p.position.x.to_i8, p.position.y.to_i8)

/-- `Particle::set_position` — fluid.rs lines 299-301: assigns only the
`position` field. -/
def set_position (p : Particle) (x y : Int) : Particle :=
  { p with position := FixedPtVec2D.from_i8s x y }

end Particle

/-- Indexing as the Rust loops do (`self.particles[i]`); all uses are in
range, the default is never produced. -/
def pget (ps : List Particle) (i : Nat) : Particle := ps.getD i (Particle.new 0 0)

/-- `struct Fluid<const N: usize>` — fluid.rs lines 304-313, with the
const-generic array of particles modelled as a list (its length plays `N`). -/
structure Fluid where
  particles : List Particle
  particle_interaction_radius : FixedPt
  stiffness : FixedPtNearFar
  target_density : FixedPt
  viscosity : FixedPtViscosity
  gravity : FixedPtVec2D
  x_max : FixedPt
  y_max : FixedPt
deriving DecidableEq

/-- The timestep constant of `Fluid::step` — fluid.rs line 342:
`(0.9 * (1 << 16) as f32) as i32`.  In `f32`, `0.9` rounds to
`15099494 * 2^-24` and the product `15099494 * 2^-8 = 58982.3984375` is
exact, so the truncating cast gives 58982. -/
def dtStep : FixedPt := ⟨58982⟩

/-- Body of the inner loop of `Fluid::apply_viscosity` — fluid.rs lines
381-397, for one ordered pair `(i, j)` with `i < j` (so the second `set`
reads the `j` entry untouched by the first `set`, exactly as the Rust
index-assignments do). -/
def viscPair (radius : FixedPt) (visc : FixedPtViscosity) (dt : FixedPt)
    (ps : List Particle) (i j : Nat) : List Particle :=
  let pa := pget ps i
  let pb := pget ps j
  let distance_vector := pa.vector_to pb
  let distance := distance_vector.magnitude
  if distance.value < radius.value then
    let direction := distance_vector / distance
    let relative_velocity := pb.vector_to pa
    let irv := relative_velocity.dot direction
    if FixedPt.ZERO.value < irv.value then
      let q := distance / radius
      let viscosity_impulse :=
        ((direction * dt) * (FixedPt.from_i8 1 - q)) *
          (visc.sigma * irv + visc.beta * irv * irv)
      (ps.set i { pa with velocity := pa.velocity - viscosity_impulse / (2 : Int) }).set j
        { pb with velocity := pb.velocity + viscosity_impulse / (2 : Int) }
    else ps
  else ps

/-- `Fluid::apply_gravity` — fluid.rs lines 371-376. -/
def Fluid.apply_gravity (f : Fluid) (dt : FixedPt) : Fluid :=
  let delta_v := f.gravity * dt
  { f with particles := f.particles.map fun p => { p with velocity := p.velocity + delta_v } }

/-- `Fluid::apply_viscosity` — fluid.rs lines 378-400: for `i` in `0..len`,
for `j` in `(i+1)..len`, run `viscPair`.  The loop bound `len` never changes
(`List.set` preserves length). -/
def Fluid.apply_viscosity (f : Fluid) (dt : FixedPt) : Fluid :=
  let n := f.particles.length
  let ps :=
    (List.range n).foldl
      (fun acc i =>
        (List.range' (i + 1) (n - (i + 1))).foldl
          (fun acc2 j => viscPair f.particle_interaction_radius f.viscosity dt acc2 i j)
          acc)
      f.particles
  { f with particles := ps }

/-- `Fluid::apply_velocity` — fluid.rs lines 402-407: save `position` into
`previous_position`, then advance `position` by `velocity * dt`. -/
def Fluid.apply_velocity (f : Fluid) (dt : FixedPt) : Fluid :=
  { f with particles := f.particles.map fun p =>
      { p with previous_position := p.position
               position := p.position + p.velocity * dt } }

/-- Body of the density-accumulation loop of `Fluid::double_density_relaxation`
— fluid.rs lines 415-425, for one index pair `(i, j)`. -/
def densityPair (radius : FixedPt) (ps : List Particle) (i j : Nat) : List Particle :=
  if i = j then ps
  else
    let pa := pget ps i
    let distance := pa.distance_to (pget ps j)
    if distance.value < radius.value then
      let one_minus_q := (radius - distance) / radius
      ps.set i
        { pa with density :=
            { near := pa.density.near + one_minus_q * one_minus_q * one_minus_q
              far := pa.density.far + one_minus_q * one_minus_q } }
    else ps

/-- Body of the displacement loop of `Fluid::double_density_relaxation` —
fluid.rs lines 431-446, for one index pair `(i, j)`; the state carries the
particle list and the running `displacement` accumulator. -/
def displacementPair (radius dt : FixedPt) (i : Nat)
    (st : List Particle × FixedPtVec2D) (j : Nat) : List Particle × FixedPtVec2D :=
  if i = j then st
  else
    let ps := st.1
    let pa := pget ps i
    let pb := pget ps j
    let distance_vector := pa.vector_to pb
    let distance := distance_vector.magnitude
    if distance.value < radius.value then
      let one_minus_q := (radius - distance) / radius
      let direction := distance_vector / distance
      let pnear := pa.pressure.near
      let pfar := pa.pressure.far
      let pressure_impulse :=
        ((direction * (pfar * one_minus_q + pnear * one_minus_q * one_minus_q)) * dt) * dt
      (ps.set j { pb with position := pb.position + pressure_impulse / (2 : Int) },
        st.2 - pressure_impulse / (2 : Int))
    else st

/-- One iteration of the outer loop of `Fluid::double_density_relaxation` —
fluid.rs lines 410-448: reset particle `i`'s density, accumulate density over
all `j ≠ i`, derive pressure, then accumulate and apply the displacement. -/
def relaxOne (radius : FixedPt) (stiffness : FixedPtNearFar) (target dt : FixedPt)
    (ps : List Particle) (i : Nat) : List Particle :=
  let ps1 := ps.set i { pget ps i with density := ⟨FixedPt.ZERO, FixedPt.ZERO⟩ }
  let ps2 := (List.range ps1.length).foldl (fun acc j => densityPair radius acc i j) ps1
  let pa := pget ps2 i
  let ps3 := ps2.set i
    { pa with pressure :=
        { near := stiffness.near * pa.density.near
          far := stiffness.far * (pa.density.far - target) } }
  let st := (List.range ps3.length).foldl
    (fun acc j => displacementPair radius dt i acc j) (ps3, FixedPtVec2D.ZERO)
  let pb := pget st.1 i
  st.1.set i { pb with position := pb.position + st.2 }

/-- `Fluid::double_density_relaxation` — fluid.rs lines 409-449. -/
def Fluid.double_density_relaxation (f : Fluid) (dt : FixedPt) : Fluid :=
  let ps :=
    (List.range f.particles.length).foldl
      (fun acc i =>
        relaxOne f.particle_interaction_radius f.stiffness f.target_density dt acc i)
      f.particles
  { f with particles := ps }

/-- The componentwise clamp of `Fluid::resolve_collisions` — fluid.rs lines
452-465: `if c < 0 { c = 0 } else if c > c_max { c = c_max }` on each axis. -/
def clampParticle (x_max y_max : FixedPt) (p : Particle) : Particle :=
  let nx := if p.position.x.value < FixedPt.ZERO.value then FixedPt.ZERO
            else if x_max.value < p.position.x.value then x_max
            else p.position.x
  let ny := if p.position.y.value < FixedPt.ZERO.value then FixedPt.ZERO
            else if y_max.value < p.position.y.value then y_max
            else p.position.y
  { p with position := ⟨nx, ny⟩ }

/-- `Fluid::resolve_collisions` — fluid.rs lines 451-466. -/
def Fluid.resolve_collisions (f : Fluid) : Fluid :=
  { f with particles := f.particles.map (clampParticle f.x_max f.y_max) }

/-- `Fluid::revise_velocity` — fluid.rs lines 468-472:
`velocity = (position - previous_position) / dt`. -/
def Fluid.revise_velocity (f : Fluid) (dt : FixedPt) : Fluid :=
  { f with particles := f.particles.map fun p =>
      { p with velocity := (p.position - p.previous_position) / dt } }

/-- `Fluid::step` — fluid.rs lines 340-361: the six stages in source order
with the constant timestep `dtStep`. -/
def Fluid.step (f : Fluid) : Fluid :=
  ((((f.apply_gravity dtStep).apply_viscosity dtStep).apply_velocity
      dtStep).double_density_relaxation dtStep).resolve_collisions.revise_velocity dtStep

/-- `Fluid::PARTICLE_POSITIONS_INIT` — fluid.rs lines 474-568: the literal
86-entry layout table. -/
def PARTICLE_POSITIONS_INIT : List (Int × Int) :=
  [(5, 11), (5, 17), (5, 23), (5, 29), (11, 17), (11, 29), (17, 29),
   (23, 11), (23, 17), (23, 23), (23, 29), (29, 11), (35, 11),
   (41, 11), (41, 17), (41, 23), (41, 29), (47, 11), (53, 11), (53, 17),
   (53, 23), (53, 29),
   (59, 11), (59, 29), (65, 11), (65, 17), (65, 23), (65, 29), (71, 11), (71, 29),
   (77, 11), (77, 17), (77, 23), (77, 29), (83, 11), (83, 29), (89, 17), (89, 23),
   (95, 14), (95, 20), (98, 8), (98, 26), (101, 32), (104, 5), (104, 38),
   (107, 32), (110, 8), (110, 26), (113, 14), (113, 20),
   (29, 44), (35, 44), (41, 44), (47, 44), (53, 44), (59, 44), (65, 44),
   (71, 44), (77, 44), (83, 44), (89, 44), (95, 44),
   (29, 50), (35, 50), (41, 50), (47, 50), (53, 50), (59, 50), (65, 50),
   (71, 50), (77, 50), (83, 50), (89, 50), (95, 50),
   (29, 56), (35, 56), (41, 56), (47, 56), (53, 56), (59, 56), (65, 56),
   (71, 56), (77, 56), (83, 56), (89, 56), (95, 56)]

/-- `Fluid::new` — fluid.rs lines 316-338: `N` particles all built as
`Particle::new(0, 0)`, then every index with a layout-table entry gets
`set_position`; parameters are the `from_f32` literals of lines 320-326,
evaluated (`16.0`, `3.0`, `2.0`, `3.5` and `0.0` scale exactly; `0.05 * 65536`
in `f32` is exactly `3276.800048828125`, truncating to 3276); `width - 1` and
`height - 1` are computed in `i8` arithmetic. -/
def Fluid.new (N : Nat) (width height : Int) : Fluid :=
  { particles :=
      (List.range N).map fun i =>
        match PARTICLE_POSITIONS_INIT[i]? with
        | some xy => (Particle.new 0 0).set_position xy.1 xy.2
        | none => Particle.new 0 0
    particle_interaction_radius := ⟨1048576⟩
    stiffness := { near := ⟨196608⟩, far := ⟨131072⟩ }
    target_density := ⟨229376⟩
    viscosity := { sigma := ⟨0⟩, beta := ⟨3276⟩ }
    gravity := FixedPtVec2D.from_i8s 0 0
    x_max := FixedPt.from_i8 (wrap8 (width - 1))
    y_max := FixedPt.from_i8 (wrap8 (height - 1)) }

/-- Modelled from the spec: `set_gravity` is called by `main.rs` but absent
from `src/fluid.rs`; per spec section 6 it converts its arguments once to the
fixed representation and stores them as the gravity vector.  The embedding
takes the already-converted vector. -/
def Fluid.set_gravity (f : Fluid) (g : FixedPtVec2D) : Fluid := { f with gravity := g }

/-- The outer driver loop of `main.rs` restricted to the core surface: each
tick applies the scheduled gravity setting and then runs `step()`. -/
def Fluid.run_schedule (f : Fluid) (sched : List FixedPtVec2D) : Fluid :=
  sched.foldl (fun acc g => (acc.set_gravity g).step) f


/-- The x components of all particle velocities, summed (the quantity the
momentum-symmetry claim is about). -/
def sumVX (ps : List Particle) : Int := (ps.map fun p => p.velocity.x.value).sum

/-- The y components of all particle velocities, summed. -/
def sumVY (ps : List Particle) : Int := (ps.map fun p => p.velocity.y.value).sum

/-- The two-particle configuration of the spec's concrete density scenario:
particles at `(0,0)` and `(3,0)`, all other parameters exactly those of
`Fluid::new` (interaction radius 16). -/
def c3Fluid : Fluid :=
  { Fluid.new 2 125 61 with particles := [Particle.new 0 0, Particle.new 3 0] }

/-! ### Arithmetic helper lemmas -/

theorem wrap32_eq_self {x : Int} (hlo : -2^31 ≤ x) (hhi : x < 2^31) : wrap32 x = x := by
  unfold wrap32
  omega

theorem wrap8_eq_self {x : Int} (hlo : -2^7 ≤ x) (hhi : x < 2^7) : wrap8 x = x := by
  unfold wrap8
  omega

theorem wrap32_emod (x : Int) : wrap32 x % 2^32 = x % 2^32 := by
  unfold wrap32
  omega

/-- Truncated division is invariant under scaling both operands by a positive
constant; this is what makes the fluid.rs division collapse to the integer
quotient of the raw values. -/
theorem tdiv_mul_mul_left (a b k : Int) (hk : 0 < k) : (k * a).tdiv (k * b) = a.tdiv b := by
  rcases Int.natAbs_eq a with h1 | h1 <;> rcases Int.natAbs_eq b with h2 | h2 <;>
    rw [h1, h2] <;>
    (try simp only [Int.mul_neg, Int.neg_tdiv, Int.tdiv_neg, Int.neg_neg]) <;>
    rw [Int.tdiv_eq_ediv (by positivity) (by positivity),
      Int.tdiv_eq_ediv (Int.ofNat_nonneg _) (Int.ofNat_nonneg _),
      Int.mul_ediv_mul_of_pos _ _ hk]

theorem natAbs_tdiv_le (a b : Int) : (a.tdiv b).natAbs ≤ a.natAbs := by
  rw [Int.natAbs_tdiv]
  exact Nat.div_le_self _ _

/-! ### List indexing helper lemmas -/

theorem pget_map (g : Particle → Particle) (l : List Particle) (i : Nat) (h : i < l.length) :
    pget (l.map g) i = g (pget l i) := by
  simp [pget, List.getD, List.getElem?_eq_getElem, h]

theorem pget_set_ne (l : List Particle) (i j : Nat) (a : Particle) (h : i ≠ j) :
    pget (l.set i a) j = pget l j := by
  simp [pget, List.getD, List.getElem?_set_ne h]

theorem pget_set_self (l : List Particle) (i : Nat) (a : Particle) (h : i < l.length) :
    pget (l.set i a) i = a := by
  simp [pget, List.getD, List.getElem?_set, h]

theorem FixedPt.eta (a : FixedPt) : FixedPt.mk a.value = a := rfl

theorem FixedPtVec2D.veta (v : FixedPtVec2D) : FixedPtVec2D.mk v.x v.y = v := rfl


/-! ### Unfolding lemmas for the operator instances -/

@[simp] theorem FixedPt.add_def (a b : FixedPt) : a + b = FixedPt.add a b := rfl
@[simp] theorem FixedPt.sub_def (a b : FixedPt) : a - b = FixedPt.sub a b := rfl
@[simp] theorem FixedPt.mul_def (a b : FixedPt) : a * b = FixedPt.mul a b := rfl
@[simp] theorem FixedPt.div_def (a b : FixedPt) : a / b = FixedPt.div a b := rfl
@[simp] theorem FixedPt.divInt_def (a : FixedPt) (n : Int) : a / n = FixedPt.divInt a n := rfl
@[simp] theorem FixedPtVec2D.vadd_def (a b : FixedPtVec2D) : a + b = FixedPtVec2D.add a b := rfl
@[simp] theorem FixedPtVec2D.vsub_def (a b : FixedPtVec2D) : a - b = FixedPtVec2D.sub a b := rfl
@[simp] theorem FixedPtVec2D.mulF_def (a : FixedPtVec2D) (s : FixedPt) :
    a * s = FixedPtVec2D.mulF a s := rfl
@[simp] theorem FixedPtVec2D.divF_def (a : FixedPtVec2D) (s : FixedPt) :
    a / s = FixedPtVec2D.divF a s := rfl
@[simp] theorem FixedPtVec2D.divI_def (a : FixedPtVec2D) (n : Int) :
    a / n = FixedPtVec2D.divI a n := rfl

@[simp] theorem FixedPt.ZERO_value : FixedPt.ZERO.value = 0 := rfl
@[simp] theorem FixedPt.from_i8_zero : FixedPt.from_i8 0 = ⟨0⟩ := rfl
@[simp] theorem FixedPtVec2D.from_i8s_zero : FixedPtVec2D.from_i8s 0 0 = ⟨⟨0⟩, ⟨0⟩⟩ := rfl
@[simp] theorem wrap32_zero : wrap32 0 = 0 := rfl
@[simp] theorem sar_zero (k : Nat) : sar 0 k = 0 := Int.zero_ediv _

/-! ### C6 — integer round-trip through the fixed-point type -/

/-- C6: for every integer `k` in the `i8` range, `to_i8 (from_i8 k) = k`:
`from_i8` left-shifts by the fractional width exactly, and `to_i8`'s
arithmetic right shift undoes it with no truncation on whole integers. -/
theorem c6_roundtrip (k : Int) (hlo : -128 ≤ k) (hhi : k ≤ 127) :
    FixedPt.to_i8 (FixedPt.from_i8 k) = k := by
  unfold FixedPt.to_i8 FixedPt.from_i8
  have h1 : wrap32 (k * 2^16) = k * 2^16 := wrap32_eq_self (by omega) (by omega)
  rw [h1]
  unfold sar
  rw [Int.mul_ediv_cancel k (by norm_num)]
  exact wrap8_eq_self (by omega) (by omega)

/-- Witness for C6 at `k = -5`. -/
theorem c6_roundtrip_witness :
    (-128 ≤ (-5 : Int)) ∧ ((-5 : Int) ≤ 127) ∧ FixedPt.to_i8 (FixedPt.from_i8 (-5)) = -5 :=
  ⟨by decide, by decide, c6_roundtrip (-5) (by decide) (by decide)⟩

/-! ### C2 — what the two division implementations actually compute -/

/-- C2 counterexample: at `a = 1.0` (raw 65536) and `b = 2.0` (raw 131072),
the program's division (fluid.rs) yields raw 0, not
`(a.value << 16) / b.value = 32768`; and at raw `a = 1`, `b = 65536` the
fluid/fixed.rs division yields raw 0, not 1.  So neither implementation
widens the dividend by the full fractional width. -/
theorem c2_counterexample :
    (FixedPt.div ⟨65536⟩ ⟨131072⟩).value = 0 ∧
    Int.tdiv ((65536 : Int) * 2^16) 131072 = 32768 ∧
    ¬ (FixedPt.div ⟨65536⟩ ⟨131072⟩).value = Int.tdiv ((65536 : Int) * 2^16) 131072 ∧
    (FixedPt.div_fixed_module ⟨1⟩ ⟨65536⟩).value = 0 ∧
    ¬ (FixedPt.div_fixed_module ⟨1⟩ ⟨65536⟩).value = Int.tdiv ((1 : Int) * 2^16) 65536 := by
  refine ⟨by decide, by decide, by decide, by decide, by decide⟩

/-- C2 amended: absent overflow, the fluid.rs division shifts BOTH operands
left by half the fractional width (8 bits), so its result's raw value is the
truncated integer quotient `a.value / b.value` — it retains no fractional
precision at all; the fluid/fixed.rs revision computes
`((a.value << 8) / b.value) << 8`, retaining 8 fractional bits.  Neither
equals `(a.value << 16) / b.value`. -/
theorem c2_division_semantics (a b : FixedPt)
    (ha : a.value.natAbs < 2^23) (hb : b.value.natAbs < 2^23)
    (hblo : 2^8 ≤ b.value.natAbs) :
    (FixedPt.div a b).value = a.value.tdiv b.value ∧
    (FixedPt.div_fixed_module a b).value = (Int.tdiv (a.value * 2^8) b.value) * 2^8 := by
  have ha32 : wrap32 (a.value * 2^8) = a.value * 2^8 := wrap32_eq_self (by omega) (by omega)
  have hb32 : wrap32 (b.value * 2^8) = b.value * 2^8 := wrap32_eq_self (by omega) (by omega)
  constructor
  · unfold FixedPt.div
    rw [ha32, hb32, mul_comm a.value (2^8 : Int), mul_comm b.value (2^8 : Int),
      tdiv_mul_mul_left _ _ _ (by norm_num)]
    have : (a.value.tdiv b.value).natAbs ≤ a.value.natAbs := natAbs_tdiv_le _ _
    exact wrap32_eq_self (by omega) (by omega)
  · unfold FixedPt.div_fixed_module
    rw [ha32]
    have hq : ((a.value * 2^8).tdiv b.value).natAbs ≤ a.value.natAbs := by
      rw [Int.natAbs_tdiv, Int.natAbs_mul]
      calc a.value.natAbs * (2^8 : Int).natAbs / b.value.natAbs
          ≤ a.value.natAbs * (2^8 : Int).natAbs / 2^8 :=
            Nat.div_le_div_left hblo (by norm_num)
        _ = a.value.natAbs := by simp
    have hq32 : wrap32 ((a.value * 2^8).tdiv b.value) = (a.value * 2^8).tdiv b.value :=
      wrap32_eq_self (by omega) (by omega)
    rw [hq32]
    exact wrap32_eq_self (by omega) (by omega)

/-- Witness for C2's amended semantics at `a = 1.0`, `b = 2.0`: the program's
quotient raw value is `tdiv 65536 131072 = 0`, the fixed.rs revision's is
32768. -/
theorem c2_division_semantics_witness :
    ((65536 : Int).natAbs < 2^23) ∧ ((131072 : Int).natAbs < 2^23) ∧
    (2^8 ≤ (131072 : Int).natAbs) ∧
    ((FixedPt.div ⟨65536⟩ ⟨131072⟩).value = (65536 : Int).tdiv 131072 ∧
      (FixedPt.div_fixed_module ⟨65536⟩ ⟨131072⟩).value =
        (Int.tdiv ((65536 : Int) * 2^8) 131072) * 2^8) :=
  ⟨by decide, by decide, by decide,
    c2_division_semantics ⟨65536⟩ ⟨131072⟩ (by decide) (by decide) (by decide)⟩

/-! ### C7 — magnitude on axis-aligned vectors -/

/-- C7 counterexample: for the representable scalar `L = -1`, the magnitude
of `(L, 0)` is `1`, not `L`: the octagonal formula takes absolute values of
the components first, so negative `L` refutes the claim as stated. -/
theorem c7_counterexample :
    FixedPtVec2D.magnitude ⟨FixedPt.from_i8 (-1), FixedPt.from_i8 0⟩ = FixedPt.from_i8 1 ∧
    ¬ FixedPtVec2D.magnitude ⟨FixedPt.from_i8 (-1), FixedPt.from_i8 0⟩ = FixedPt.from_i8 (-1) := by
  refine ⟨by decide, by decide⟩

/-- C7 amended: for every representable scalar `L` (raw value strictly inside
the `i32` range, so that `abs` does not wrap), the magnitude of the
axis-aligned vectors `(L, 0)` and `(0, L)` equals `|L|` exactly — and hence
equals `L` itself exactly when `L` is nonnegative. -/
theorem c7_axis_magnitude (L : FixedPt) (hlo : -2^31 < L.value) (hhi : L.value < 2^31) :
    FixedPtVec2D.magnitude ⟨L, FixedPt.from_i8 0⟩ = L.abs ∧
    FixedPtVec2D.magnitude ⟨FixedPt.from_i8 0, L⟩ = L.abs := by
  obtain ⟨m, habs, hm0, hm1⟩ : ∃ m, L.abs = ⟨m⟩ ∧ 0 ≤ m ∧ m < 2^31 := by
    unfold FixedPt.abs
    split_ifs with h
    · exact ⟨-L.value, by rw [wrap32_eq_self (by omega) (by omega)], by omega, by omega⟩
    · exact ⟨L.value, rfl, by omega, by omega⟩
  have habs0 : FixedPt.abs ⟨0⟩ = ⟨0⟩ := rfl
  have key : FixedPt.add ⟨m⟩ (FixedPt.mul ⟨0⟩ FixedPtVec2D.SQRT_2_MINUS_1) = ⟨m⟩ := by
    simp only [FixedPt.mul, FixedPt.add, sar_zero, Int.zero_mul, wrap32_zero, Int.add_zero]
    rw [wrap32_eq_self (by omega) (by omega)]
  refine ⟨?_, ?_⟩ <;>
    · simp only [FixedPtVec2D.magnitude, FixedPt.from_i8_zero, habs, habs0,
        FixedPt.cmax, FixedPt.cmin, FixedPt.add_def, FixedPt.mul_def]
      split_ifs
      all_goals first
        | exact key
        | (have hm : m = 0 := by omega
           subst hm
           decide)

/-- Witness for C7's amended statement at `L = -7`: both axis magnitudes
evaluate to `|L| = 7`. -/
theorem c7_axis_magnitude_witness :
    (-2^31 < (FixedPt.from_i8 (-7)).value) ∧ ((FixedPt.from_i8 (-7)).value < 2^31) ∧
    (FixedPtVec2D.magnitude ⟨FixedPt.from_i8 (-7), FixedPt.from_i8 0⟩ =
        (FixedPt.from_i8 (-7)).abs ∧
      FixedPtVec2D.magnitude ⟨FixedPt.from_i8 0, FixedPt.from_i8 (-7)⟩ =
        (FixedPt.from_i8 (-7)).abs) :=
  ⟨by decide, by decide, c7_axis_magnitude (FixedPt.from_i8 (-7)) (by decide) (by decide)⟩

/-! ### C10 — state of a freshly constructed fluid -/

/-- C10: after `Fluid::new`, every particle has zero velocity, zero near/far
density and zero near/far pressure; and every index with a layout-table entry
has that table coordinate as its position while `previous_position` remains
the origin, because `set_position` assigns only the `position` field. -/
theorem c10_new_state (N : Nat) (w h : Int) (i : Nat) (hi : i < N) :
    (pget (Fluid.new N w h).particles i).velocity = FixedPtVec2D.from_i8s 0 0 ∧
    (pget (Fluid.new N w h).particles i).density = FixedPtNearFar.from_i8s 0 0 ∧
    (pget (Fluid.new N w h).particles i).pressure = FixedPtNearFar.from_i8s 0 0 ∧
    ∀ x y : Int, PARTICLE_POSITIONS_INIT[i]? = some (x, y) →
      (pget (Fluid.new N w h).particles i).position = FixedPtVec2D.from_i8s x y ∧
      (pget (Fluid.new N w h).particles i).previous_position = FixedPtVec2D.from_i8s 0 0 := by
  have hpart : pget (Fluid.new N w h).particles i =
      match PARTICLE_POSITIONS_INIT[i]? with
      | some xy => (Particle.new 0 0).set_position xy.1 xy.2
      | none => Particle.new 0 0 := by
    simp [Fluid.new, pget, List.getD, List.getElem?_map, List.getElem?_range hi]
  rw [hpart]
  cases hxy : PARTICLE_POSITIONS_INIT[i]? with
  | none => simp [Particle.new, Particle.set_position]
  | some xy =>
      refine ⟨rfl, rfl, rfl, ?_⟩
      rintro x y hsome
      injection hsome with hxy2
      subst hxy2
      exact ⟨rfl, rfl⟩

/-- Witness for C10 at `N = 2`, index 0 (table entry `(5, 11)`). -/
theorem c10_new_state_witness :
    (0 < 2) ∧
    ((pget (Fluid.new 2 125 61).particles 0).velocity = FixedPtVec2D.from_i8s 0 0 ∧
      (pget (Fluid.new 2 125 61).particles 0).density = FixedPtNearFar.from_i8s 0 0 ∧
      (pget (Fluid.new 2 125 61).particles 0).pressure = FixedPtNearFar.from_i8s 0 0 ∧
      ∀ x y : Int, PARTICLE_POSITIONS_INIT[0]? = some (x, y) →
        (pget (Fluid.new 2 125 61).particles 0).position = FixedPtVec2D.from_i8s x y ∧
        (pget (Fluid.new 2 125 61).particles 0).previous_position =
          FixedPtVec2D.from_i8s 0 0) :=
  ⟨by decide, c10_new_state 2 125 61 0 (by decide)⟩

/-! ### C1 — the zero-distance guard does not exist -/

set_option maxRecDepth 20000 in
/-- C1: the only guard in both pair loops is `distance < radius`
(fluid.rs lines 383 and 420/437), which a zero-distance pair passes.  In the
reachable state `Fluid::<88>::new(125, 61)`, particles 86 and 87 both sit at
the origin (the layout table has 86 entries), their distance is exactly raw 0,
and it passes the viscosity/relaxation guard — so
`direction = distance_vector / distance` divides by a zero raw value instead
of the pair being skipped. -/
theorem c1_zero_distance_pair_enters_guard :
    (Fluid.new 88 125 61).particles.length = 88 ∧
    ((pget (Fluid.new 88 125 61).particles 86).distance_to
        (pget (Fluid.new 88 125 61).particles 87)).value = 0 ∧
    ((pget (Fluid.new 88 125 61).particles 86).distance_to
          (pget (Fluid.new 88 125 61).particles 87)).value <
        (Fluid.new 88 125 61).particle_interaction_radius.value := by
  refine ⟨by simp [Fluid.new], by decide, by decide⟩

/-! ### C3 — the concrete two-particle density scenario -/

set_option maxRecDepth 20000 in
/-- C3: with the program's division (fluid.rs), `one_minus_q` for the
particles at `(0,0)` and `(3,0)` is already raw 0, so after the
density-accumulation stage both densities are raw 0 — nowhere near the
expected `0.8125^2` and `0.8125^3`.  The expected values are exactly what the
fluid/fixed.rs revision's division produces: `one_minus_q` raw 53248
(= 0.8125), far contribution raw 43264 (= 0.66015625), near contribution raw
35152 (= 0.536376953125). -/
theorem c3_density_scenario :
    (((c3Fluid.double_density_relaxation dtStep).particles.map
        fun p => (p.density.far.value, p.density.near.value)) = [(0, 0), (0, 0)]) ∧
    ((c3Fluid.particle_interaction_radius -
          (Particle.new 0 0).distance_to (Particle.new 3 0)) /
        c3Fluid.particle_interaction_radius).value = 0 ∧
    (FixedPt.div_fixed_module
        (c3Fluid.particle_interaction_radius -
          (Particle.new 0 0).distance_to (Particle.new 3 0))
        c3Fluid.particle_interaction_radius).value = 53248 ∧
    (FixedPt.mul ⟨53248⟩ ⟨53248⟩).value = 43264 ∧
    (FixedPt.mul (FixedPt.mul ⟨53248⟩ ⟨53248⟩) ⟨53248⟩).value = 35152 := by
  refine ⟨by decide, by decide, by decide, by decide, by decide⟩

/-! ### C5 — determinism of construction and stepping -/

/-- C5: `step()` and `Fluid::new` are pure functions of the fluid state, so
two fluids constructed with the same particle count, width and height and run
under the same gravity schedule hold identical particle arrays after every
tick. -/
theorem c5_determinism (N : Nat) (w h : Int) (f1 f2 : Fluid)
    (h1 : f1 = Fluid.new N w h) (h2 : f2 = Fluid.new N w h)
    (sched : List FixedPtVec2D) (n : Nat) :
    (f1.run_schedule (sched.take n)).particles =
      (f2.run_schedule (sched.take n)).particles := by
  subst h1
  subst h2
  rfl

/-- Witness for C5: two copies of `Fluid::<3>::new(125, 61)` agree after one
tick of a one-entry gravity schedule. -/
theorem c5_determinism_witness :
    (Fluid.new 3 125 61 = Fluid.new 3 125 61) ∧
    ((Fluid.new 3 125 61).run_schedule ([FixedPtVec2D.from_i8s 0 1].take 1)).particles =
      ((Fluid.new 3 125 61).run_schedule ([FixedPtVec2D.from_i8s 0 1].take 1)).particles :=
  ⟨rfl, c5_determinism 3 125 61 _ _ rfl rfl [FixedPtVec2D.from_i8s 0 1] 1⟩

/-! ### C4 — boundary containment after every step -/

/-- C4: for every fluid whose domain bounds are nonnegative, every particle
position after `step()` lies inside `[0, x_max] × [0, y_max]`: the
collision-resolution stage clamps componentwise, and the velocity-revision
stage that follows it never touches positions. -/
theorem c4_boundary_containment (f : Fluid)
    (hx : 0 ≤ f.x_max.value) (hy : 0 ≤ f.y_max.value)
    (i : Nat) (hi : i < (Fluid.step f).particles.length) :
    0 ≤ (pget (Fluid.step f).particles i).position.x.value ∧
    (pget (Fluid.step f).particles i).position.x.value ≤ f.x_max.value ∧
    0 ≤ (pget (Fluid.step f).particles i).position.y.value ∧
    (pget (Fluid.step f).particles i).position.y.value ≤ f.y_max.value := by
  have hstep : (Fluid.step f).particles =
      ((((((f.apply_gravity dtStep).apply_viscosity dtStep).apply_velocity
          dtStep).double_density_relaxation dtStep)).particles.map
        (clampParticle f.x_max f.y_max)).map
        (fun p => { p with velocity := (p.position - p.previous_position) / dtStep }) := rfl
  rw [hstep] at hi ⊢
  simp only [List.length_map] at hi
  rw [pget_map _ _ _ (by simpa using hi), pget_map _ _ _ hi]
  generalize pget _ i = p
  show 0 ≤ (clampParticle f.x_max f.y_max p).position.x.value ∧ _
  unfold clampParticle
  simp only [FixedPt.ZERO_value]
  split_ifs <;> simp_all

set_option maxRecDepth 40000 in
/-- Witness for C4 on `Fluid::<2>::new(125, 61)` at particle 0. -/
theorem c4_boundary_containment_witness :
    (0 ≤ (Fluid.new 2 125 61).x_max.value) ∧ (0 ≤ (Fluid.new 2 125 61).y_max.value) ∧
    (0 < (Fluid.step (Fluid.new 2 125 61)).particles.length) ∧
    (0 ≤ (pget (Fluid.step (Fluid.new 2 125 61)).particles 0).position.x.value ∧
      (pget (Fluid.step (Fluid.new 2 125 61)).particles 0).position.x.value ≤
        (Fluid.new 2 125 61).x_max.value ∧
      0 ≤ (pget (Fluid.step (Fluid.new 2 125 61)).particles 0).position.y.value ∧
      (pget (Fluid.step (Fluid.new 2 125 61)).particles 0).position.y.value ≤
        (Fluid.new 2 125 61).y_max.value) :=
  ⟨by decide, by decide, by decide,
    c4_boundary_containment (Fluid.new 2 125 61) (by decide) (by decide) 0 (by decide)⟩

/-! ### C8 — the viscosity stage conserves the velocity sums -/

theorem pget_cons_zero (hd : Particle) (tl : List Particle) : pget (hd :: tl) 0 = hd := rfl

theorem pget_cons_succ (hd : Particle) (tl : List Particle) (n : Nat) :
    pget (hd :: tl) (n + 1) = pget tl n := rfl

theorem sum_map_set (g : Particle → Int) (l : List Particle) (i : Nat) (a : Particle)
    (h : i < l.length) :
    ((l.set i a).map g).sum = (l.map g).sum - g (pget l i) + g a := by
  induction l generalizing i with
  | nil => simp at h
  | cons hd tl ih =>
      cases i with
      | zero =>
          simp only [List.set_cons_zero, List.map_cons, List.sum_cons, pget_cons_zero]
          ring
      | succ n =>
          simp only [List.set_cons_succ, List.map_cons, List.sum_cons, pget_cons_succ]
          rw [ih n (by simpa using h)]
          ring

/-- One viscosity pair update with in-range distinct indices preserves the
length and both componentwise velocity sums modulo `2^32`: the identical
half-impulse is subtracted from particle `i` and added to particle `j`. -/
theorem viscPair_sums (radius : FixedPt) (visc : FixedPtViscosity) (dt : FixedPt)
    (ps : List Particle) (i j : Nat) (hi : i < ps.length) (hj : j < ps.length) (hij : i ≠ j) :
    (viscPair radius visc dt ps i j).length = ps.length ∧
    sumVX (viscPair radius visc dt ps i j) % 2^32 = sumVX ps % 2^32 ∧
    sumVY (viscPair radius visc dt ps i j) % 2^32 = sumVY ps % 2^32 := by
  simp only [viscPair]
  split_ifs with h1 h2
  · refine ⟨by simp, ?_, ?_⟩ <;>
    · simp only [sumVX, sumVY]
      rw [sum_map_set _ _ j _ (by simpa using hj), pget_set_ne _ _ _ _ hij,
        sum_map_set _ _ i _ hi]
      simp only [FixedPtVec2D.vsub_def, FixedPtVec2D.vadd_def, FixedPtVec2D.sub,
        FixedPtVec2D.add, FixedPtVec2D.divI_def, FixedPtVec2D.divI, FixedPt.sub_def,
        FixedPt.add_def, FixedPt.sub, FixedPt.add, wrap32]
      omega
  · exact ⟨rfl, rfl, rfl⟩
  · exact ⟨rfl, rfl, rfl⟩

theorem foldl_sums {β : Type} (g : List Particle → β → List Particle) (l : List β)
    (n : Nat) (sx sy : Int)
    (hstep : ∀ acc b, b ∈ l →
      (acc.length = n ∧ sumVX acc % 2^32 = sx ∧ sumVY acc % 2^32 = sy) →
      ((g acc b).length = n ∧ sumVX (g acc b) % 2^32 = sx ∧ sumVY (g acc b) % 2^32 = sy)) :
    ∀ init, (init.length = n ∧ sumVX init % 2^32 = sx ∧ sumVY init % 2^32 = sy) →
      ((l.foldl g init).length = n ∧ sumVX (l.foldl g init) % 2^32 = sx ∧
        sumVY (l.foldl g init) % 2^32 = sy) := by
  induction l with
  | nil => intro init h; simpa using h
  | cons hd tl ih =>
      intro init h
      simp only [List.foldl_cons]
      exact ih (fun acc b hb hacc => hstep acc b (List.mem_cons_of_mem _ hb) hacc) _
        (hstep init hd (List.mem_cons_self _ _) h)

/-- C8: the viscosity stage applies the identical half impulse with opposite
signs to the two particles of each interacting closing pair, so it leaves
both componentwise sums of all particle velocities unchanged (as `i32` sums,
i.e. modulo `2^32`). -/
theorem c8_viscosity_momentum (f : Fluid) (dt : FixedPt) :
    sumVX (f.apply_viscosity dt).particles % 2^32 = sumVX f.particles % 2^32 ∧
    sumVY (f.apply_viscosity dt).particles % 2^32 = sumVY f.particles % 2^32 := by
  have main :
      ((f.apply_viscosity dt).particles.length = f.particles.length ∧
        sumVX (f.apply_viscosity dt).particles % 2^32 = sumVX f.particles % 2^32 ∧
        sumVY (f.apply_viscosity dt).particles % 2^32 = sumVY f.particles % 2^32) := by
    unfold Fluid.apply_viscosity
    refine foldl_sums _ _ _ _ _ ?_ _ ⟨rfl, rfl, rfl⟩
    intro acc i hi hacc
    refine foldl_sums _ _ _ _ _ ?_ _ hacc
    intro acc2 j hj hacc2
    have hi' : i < f.particles.length := List.mem_range.mp hi
    have hj' : i + 1 ≤ j ∧ j < i + 1 + (f.particles.length - (i + 1)) :=
      List.mem_range'_1.mp hj
    have := viscPair_sums f.particle_interaction_radius f.viscosity dt acc2 i j
      (by omega) (by omega) (by omega)
    exact ⟨by rw [this.1, hacc2.1], by rw [this.2.1, hacc2.2.1], by rw [this.2.2, hacc2.2.2]⟩
  exact main.2

/-! ### C9 — no interaction beyond the radius -/

/-- C9: a fluid of exactly two particles farther apart than the interaction
radius (in both loop directions of the octagonal distance), with zero
gravity, zero viscosity coefficients and zero velocities, starting inside the
domain box, has both positions unchanged by one `step()`. -/
theorem c9_no_long_range_effect (p0 p1 : Particle) (r tg xm ym : FixedPt)
    (st : FixedPtNearFar)
    (hv0 : p0.velocity = FixedPtVec2D.from_i8s 0 0)
    (hv1 : p1.velocity = FixedPtVec2D.from_i8s 0 0)
    (hd01 : ¬ (p0.distance_to p1).value < r.value)
    (hd10 : ¬ (p1.distance_to p0).value < r.value)
    (hx0a : 0 ≤ p0.position.x.value) (hx0b : p0.position.x.value ≤ xm.value)
    (hy0a : 0 ≤ p0.position.y.value) (hy0b : p0.position.y.value ≤ ym.value)
    (hx1a : 0 ≤ p1.position.x.value) (hx1b : p1.position.x.value ≤ xm.value)
    (hy1a : 0 ≤ p1.position.y.value) (hy1b : p1.position.y.value ≤ ym.value)
    (hxm : xm.value < 2^31) (hym : ym.value < 2^31) :
    (Fluid.step
        { particles := [p0, p1]
          particle_interaction_radius := r
          stiffness := st
          target_density := tg
          viscosity := { sigma := FixedPt.ZERO, beta := FixedPt.ZERO }
          gravity := FixedPtVec2D.from_i8s 0 0
          x_max := xm
          y_max := ym }).particles.map (fun p => p.position) =
      [p0.position, p1.position] := by
  have w0x : wrap32 p0.position.x.value = p0.position.x.value :=
    wrap32_eq_self (by omega) (by omega)
  have w0y : wrap32 p0.position.y.value = p0.position.y.value :=
    wrap32_eq_self (by omega) (by omega)
  have w1x : wrap32 p1.position.x.value = p1.position.x.value :=
    wrap32_eq_self (by omega) (by omega)
  have w1y : wrap32 p1.position.y.value = p1.position.y.value :=
    wrap32_eq_self (by omega) (by omega)
  have hnx0 : ¬ p0.position.x.value < 0 := by omega
  have hny0 : ¬ p0.position.y.value < 0 := by omega
  have hnx1 : ¬ p1.position.x.value < 0 := by omega
  have hny1 : ¬ p1.position.y.value < 0 := by omega
  have hmx0 : ¬ xm.value < p0.position.x.value := by omega
  have hmy0 : ¬ ym.value < p0.position.y.value := by omega
  have hmx1 : ¬ xm.value < p1.position.x.value := by omega
  have hmy1 : ¬ ym.value < p1.position.y.value := by omega
  simp only [Particle.distance_to, FixedPtVec2D.distance_to] at hd01 hd10
  simp [Fluid.step, Fluid.apply_gravity, Fluid.apply_viscosity, Fluid.apply_velocity,
    Fluid.double_density_relaxation, Fluid.resolve_collisions, Fluid.revise_velocity,
    relaxOne, viscPair, densityPair, displacementPair, clampParticle,
    List.range_succ, List.length_set, List.set_cons_zero, List.set_cons_succ,
    pget_cons_zero, pget_cons_succ,
    Particle.vector_to, Particle.distance_to, FixedPtVec2D.distance_to,
    hv0, hv1, hd01, hd10, hnx0, hny0, hnx1, hny1, hmx0, hmy0, hmx1, hmy1,
    FixedPtVec2D.from_i8s_zero,
    FixedPtVec2D.vadd_def, FixedPtVec2D.vsub_def, FixedPtVec2D.mulF_def,
    FixedPtVec2D.divF_def, FixedPtVec2D.divI_def,
    FixedPtVec2D.add, FixedPtVec2D.mulF, FixedPtVec2D.ZERO,
    FixedPt.add_def, FixedPt.mul_def, FixedPt.add, FixedPt.mul,
    sar_zero, wrap32_zero, w0x, w0y, w1x, w1y, FixedPt.eta, FixedPtVec2D.veta]

/-- Witness for C9: particles at `(0, 0)` and `(20, 0)` (distance 20 > radius
16), `Fluid::new` parameters with zero gravity and zero viscosity
coefficients, box `[0, 124] × [0, 60]`. -/
theorem c9_no_long_range_effect_witness :
    ((Particle.new 0 0).velocity = FixedPtVec2D.from_i8s 0 0) ∧
    (¬ ((Particle.new 0 0).distance_to (Particle.new 20 0)).value <
        (⟨1048576⟩ : FixedPt).value) ∧
    (¬ ((Particle.new 20 0).distance_to (Particle.new 0 0)).value <
        (⟨1048576⟩ : FixedPt).value) ∧
    (Fluid.step
        { particles := [Particle.new 0 0, Particle.new 20 0]
          particle_interaction_radius := ⟨1048576⟩
          stiffness := { near := ⟨196608⟩, far := ⟨131072⟩ }
          target_density := ⟨229376⟩
          viscosity := { sigma := FixedPt.ZERO, beta := FixedPt.ZERO }
          gravity := FixedPtVec2D.from_i8s 0 0
          x_max := FixedPt.from_i8 124
          y_max := FixedPt.from_i8 60 }).particles.map (fun p => p.position) =
      [(Particle.new 0 0).position, (Particle.new 20 0).position] :=
  ⟨rfl, by decide, by decide,
    c9_no_long_range_effect (Particle.new 0 0) (Particle.new 20 0) ⟨1048576⟩ ⟨229376⟩
      (FixedPt.from_i8 124) (FixedPt.from_i8 60) { near := ⟨196608⟩, far := ⟨131072⟩ }
      rfl rfl (by decide) (by decide) (by decide) (by decide) (by decide) (by decide)
      (by decide) (by decide) (by decide) (by decide) (by decide) (by decide)⟩
